import Mathlib

/-!
Shallow embedding of the selector-resolution layer of `parity/params.rs`:
typed configuration selectors, their textual parsers and renderers, and the
pure resolution functions that combine a requested selector with persisted
user defaults.  Rust `Result<T, String>` is embedded as `Except String T`;
`&str` as `String`; `U256` payloads (only carried, never computed with) as
`Nat`; `Duration` as its number of seconds (`Nat`); `f32` payloads (only
carried, never computed with) as `Float`.
-/

/-- Modelled from the spec: the external `journaldb::Algorithm` pruning
enumeration (the algorithm-name parser and the algorithms' behaviour are
external collaborators; only the four variant names are needed here). -/
inductive Algorithm where
  | Archive
  | EarlyMerge
  | OverlayRecent
  | RefCounted
deriving DecidableEq, Repr

/-- Modelled from the spec: the external `ethcore::client::Mode` operating
mode (its internal structure is immaterial to resolution; only structural
equality of values is used). -/
inductive Mode where
  | Active
  | Passive
  | Dark
  | Off
deriving DecidableEq, Repr

/-- Modelled from the spec: the external `UserDefaults` persisted-defaults
store, read-only during resolution, exposing the fields `params.rs` reads. -/
structure UserDefaults where
  is_first_launch : Bool
  pruning : Algorithm
  tracing : Bool
  fat_db : Bool
  mode : Mode
deriving DecidableEq, Repr

/-- `enum SpecType` from `params.rs`. -/
inductive SpecType where
  | Foundation
  | Morden
  | Ropsten
  | Kovan
  | Olympic
  | Classic
  | Expanse
  | Dev
  | Custom (s : String)
deriving DecidableEq, Repr

/-- `impl Default for SpecType`. -/
def SpecType.default : SpecType := SpecType.Foundation

/-- `impl str::FromStr for SpecType` — matches the alias token and falls
through to `Custom` carrying the raw input; always returns `Ok`. -/
def SpecType.from_str (s : String) : Except String SpecType :=
  Except.ok (match s with
    | "foundation" | "frontier" | "homestead" | "mainnet" => SpecType.Foundation
    | "frontier-dogmatic" | "homestead-dogmatic" | "classic" => SpecType.Classic
    | "morden" | "classic-testnet" => SpecType.Morden
    | "ropsten" => SpecType.Ropsten
    | "kovan" | "testnet" => SpecType.Kovan
    | "olympic" => SpecType.Olympic
    | "expanse" => SpecType.Expanse
    | "dev" => SpecType.Dev
    | other => SpecType.Custom other)

/-- The alias tokens recognised by `SpecType::from_str` (every literal
pattern of its `match`). -/
def recognized_chain_aliases : List String :=
  ["foundation", "frontier", "homestead", "mainnet",
   "frontier-dogmatic", "homestead-dogmatic", "classic",
   "morden", "classic-testnet",
   "ropsten",
   "kovan", "testnet",
   "olympic",
   "expanse",
   "dev"]

/-- `impl fmt::Display for SpecType` — the string written by `fmt`. -/
def SpecType.fmt : SpecType → String
  | SpecType.Foundation => "foundation"
  | SpecType.Morden => "morden"
  | SpecType.Ropsten => "ropsten"
  | SpecType.Olympic => "olympic"
  | SpecType.Classic => "classic"
  | SpecType.Expanse => "expanse"
  | SpecType.Kovan => "kovan"
  | SpecType.Dev => "dev"
  | SpecType.Custom custom => custom

/-- `SpecType::legacy_fork_name`. -/
def SpecType.legacy_fork_name : SpecType → Option String
  | SpecType.Classic => some "classic"
  | SpecType.Expanse => some "expanse"
  | _ => none

/-- `enum Pruning` from `params.rs`. -/
inductive Pruning where
  | Specific (a : Algorithm)
  | Auto
deriving DecidableEq, Repr

/-- `Pruning::to_algorithm`. -/
def Pruning.to_algorithm (p : Pruning) (user_defaults : UserDefaults) : Algorithm :=
  match p with
  | Pruning.Specific algo => algo
  | Pruning.Auto => user_defaults.pruning

/-- `struct ResealPolicy` from `params.rs`. -/
structure ResealPolicy where
  own : Bool
  external : Bool
deriving DecidableEq, Repr

/-- `impl Default for ResealPolicy`. -/
def ResealPolicy.default : ResealPolicy :=
  { own := true, external := true }

/-- `impl str::FromStr for ResealPolicy`. -/
def ResealPolicy.from_str (s : String) : Except String ResealPolicy :=
  match s with
  | "none" => Except.ok { own := false, external := false }
  | "own" => Except.ok { own := true, external := false }
  | "ext" => Except.ok { own := false, external := true }
  | "all" => Except.ok { own := true, external := true }
  | x => Except.error ("Invalid reseal value: " ++ x)

/-- Modelled from the spec: the external `GasPriceCalibratorOptions` record
passed to the calibration engine — exactly the two fields the `Into`
conversion fills in. -/
structure GasPriceCalibratorOptions where
  usd_per_tx : Float
  recalibration_period : Nat
deriving Repr

/-- Modelled from the spec: the external runtime `GasPricer` configuration;
`new_calibrated` packages calibrator options. -/
inductive GasPricer where
  | Fixed (u : Nat)
  | Calibrated (opts : GasPriceCalibratorOptions)
deriving Repr

/-- Modelled from the spec: `GasPricer::new_calibrated`, carrying the
calibrator options into the runtime configuration. -/
def GasPricer.new_calibrated (opts : GasPriceCalibratorOptions) : GasPricer :=
  GasPricer.Calibrated opts

/-- `enum GasPricerConfig` from `params.rs`. -/
inductive GasPricerConfig where
  | Fixed (u : Nat)
  | Calibrated (initial_minimum : Nat) (usd_per_tx : Float) (recalibration_period : Nat)
deriving Repr

/-- `GasPricerConfig::initial_min`. -/
def GasPricerConfig.initial_min : GasPricerConfig → Nat
  | GasPricerConfig.Fixed min => min
  | GasPricerConfig.Calibrated initial_minimum _ _ => initial_minimum

/-- `impl Default for GasPricerConfig`. -/
def GasPricerConfig.default : GasPricerConfig :=
  GasPricerConfig.Calibrated 11904761856 0.0025 3600

/-- `impl Into<GasPricer> for GasPricerConfig`. -/
def GasPricerConfig.into_gas_pricer : GasPricerConfig → GasPricer
  | GasPricerConfig.Fixed u => GasPricer.Fixed u
  | GasPricerConfig.Calibrated _ usd_per_tx recalibration_period =>
      GasPricer.new_calibrated
        { usd_per_tx := usd_per_tx, recalibration_period := recalibration_period }

/-- `enum Switch` from `params.rs` (the tri-state feature switch). -/
inductive Switch where
  | On
  | Off
  | Auto
deriving DecidableEq, Repr

/-- `impl Default for Switch`. -/
def Switch.default : Switch := Switch.Auto

/-- `impl str::FromStr for Switch`. -/
def Switch.from_str (s : String) : Except String Switch :=
  match s with
  | "on" => Except.ok Switch.On
  | "off" => Except.ok Switch.Off
  | "auto" => Except.ok Switch.Auto
  | other => Except.error ("Invalid switch value: " ++ other)

/-- `tracing_switch_to_bool` from `params.rs`. -/
def tracing_switch_to_bool (switch : Switch) (user_defaults : UserDefaults) :
    Except String Bool :=
  match user_defaults.is_first_launch, switch, user_defaults.tracing with
  | false, Switch.On, false => Except.error "TraceDB resync required"
  | _, Switch.On, _ => Except.ok true
  | _, Switch.Off, _ => Except.ok false
  | _, Switch.Auto, d => Except.ok d

/-- `fatdb_switch_to_bool` from `params.rs` (the `_algorithm` parameter is
accepted but unused, as in the source). -/
def fatdb_switch_to_bool (switch : Switch) (user_defaults : UserDefaults)
    (_algorithm : Algorithm) : Except String Bool :=
  match user_defaults.is_first_launch, switch, user_defaults.fat_db with
  | false, Switch.On, false => Except.error "FatDB resync required"
  | _, Switch.On, _ => Except.ok true
  | _, Switch.Off, _ => Except.ok false
  | _, Switch.Auto, d => Except.ok d

/-- `mode_switch_to_bool` from `params.rs`. -/
def mode_switch_to_bool (switch : Option Mode) (user_defaults : UserDefaults) :
    Except String Mode :=
  Except.ok (switch.getD user_defaults.mode)

/-- C1: for every persisted-defaults value and every pruning algorithm
argument, both feature resolvers follow the §4.4 decision table exactly:
`Off` always yields `Ok false`, `Auto` always yields `Ok` of the persisted
flag, and `On` yields the dedicated "resync required" error exactly when
the launch is not the first and the persisted flag is false, and `Ok true`
otherwise; in particular neither resolver ever degrades an `On` request to
`Ok false`. -/
theorem switch_to_bool_decision_table (ud : UserDefaults) (a : Algorithm) :
    tracing_switch_to_bool Switch.Off ud = Except.ok false
    ∧ tracing_switch_to_bool Switch.Auto ud = Except.ok ud.tracing
    ∧ tracing_switch_to_bool Switch.On ud =
        (if ud.is_first_launch = false ∧ ud.tracing = false
         then Except.error "TraceDB resync required"
         else Except.ok true)
    ∧ tracing_switch_to_bool Switch.On ud ≠ Except.ok false
    ∧ fatdb_switch_to_bool Switch.Off ud a = Except.ok false
    ∧ fatdb_switch_to_bool Switch.Auto ud a = Except.ok ud.fat_db
    ∧ fatdb_switch_to_bool Switch.On ud a =
        (if ud.is_first_launch = false ∧ ud.fat_db = false
         then Except.error "FatDB resync required"
         else Except.ok true)
    ∧ fatdb_switch_to_bool Switch.On ud a ≠ Except.ok false := by
  obtain ⟨fl, pr, tr, fd, md⟩ := ud
  cases fl <;> cases tr <;> cases fd <;>
    simp [tracing_switch_to_bool, fatdb_switch_to_bool]

/-- C1 witness: at the concrete persisted state (not first launch, tracing
off, fat_db off), an `On` request for tracing produces the resync error. -/
theorem switch_to_bool_decision_table_witness :
    tracing_switch_to_bool Switch.On
        ⟨false, Algorithm.Archive, false, false, Mode.Active⟩ =
      Except.error "TraceDB resync required" := by
  have h := switch_to_bool_decision_table
    ⟨false, Algorithm.Archive, false, false, Mode.Active⟩ Algorithm.Archive
  simpa using h.2.2.1

/-- C2: `SpecType::from_str` never fails, and every input outside the
recognized alias tokens parses to `Custom` carrying the input unchanged. -/
theorem spec_type_from_str_total (s : String) :
    (∃ t, SpecType.from_str s = Except.ok t)
    ∧ (s ∉ recognized_chain_aliases →
        SpecType.from_str s = Except.ok (SpecType.Custom s)) := by
  constructor
  · exact ⟨_, rfl⟩
  · intro h
    unfold SpecType.from_str
    congr 1
    split <;> simp_all [recognized_chain_aliases]

/-- C2 witness: the unrecognized token "some/path.json" parses to the
`Custom` variant carrying it verbatim. -/
theorem spec_type_from_str_total_witness :
    SpecType.from_str "some/path.json" = Except.ok (SpecType.Custom "some/path.json") :=
  (spec_type_from_str_total "some/path.json").2 (by decide)

/-- C3: ChainSelector alias groups collapse many-to-one: within each of the
eight recognized alias groups every alias parses to that group's canonical
variant — "foundation"/"frontier"/"homestead"/"mainnet" to `Foundation`,
"frontier-dogmatic"/"homestead-dogmatic"/"classic" to `Classic`,
"morden"/"classic-testnet" to `Morden`, "ropsten" to `Ropsten`,
"kovan"/"testnet" to `Kovan`, "olympic" to `Olympic`, "expanse" to
`Expanse`, "dev" to `Dev` — and the eight canonical variants of the
distinct groups are pairwise distinct. -/
theorem spec_type_alias_groups :
    SpecType.from_str "foundation" = Except.ok SpecType.Foundation
    ∧ SpecType.from_str "frontier" = Except.ok SpecType.Foundation
    ∧ SpecType.from_str "homestead" = Except.ok SpecType.Foundation
    ∧ SpecType.from_str "mainnet" = Except.ok SpecType.Foundation
    ∧ SpecType.from_str "frontier-dogmatic" = Except.ok SpecType.Classic
    ∧ SpecType.from_str "homestead-dogmatic" = Except.ok SpecType.Classic
    ∧ SpecType.from_str "classic" = Except.ok SpecType.Classic
    ∧ SpecType.from_str "morden" = Except.ok SpecType.Morden
    ∧ SpecType.from_str "classic-testnet" = Except.ok SpecType.Morden
    ∧ SpecType.from_str "ropsten" = Except.ok SpecType.Ropsten
    ∧ SpecType.from_str "kovan" = Except.ok SpecType.Kovan
    ∧ SpecType.from_str "testnet" = Except.ok SpecType.Kovan
    ∧ SpecType.from_str "olympic" = Except.ok SpecType.Olympic
    ∧ SpecType.from_str "expanse" = Except.ok SpecType.Expanse
    ∧ SpecType.from_str "dev" = Except.ok SpecType.Dev
    ∧ List.Pairwise (fun v w => v ≠ w)
        [SpecType.Foundation, SpecType.Classic, SpecType.Morden,
         SpecType.Ropsten, SpecType.Kovan, SpecType.Olympic,
         SpecType.Expanse, SpecType.Dev] := by
  refine ⟨rfl, rfl, rfl, rfl, rfl, rfl, rfl, rfl, rfl, rfl, rfl, rfl, rfl,
    rfl, rfl, ?_⟩
  decide

/-- C4: render after parse round-trips for canonical tokens: every
non-`Custom` variant renders to one of the recognized alias tokens and
parses back to itself; `Custom` renders its stored string verbatim. -/
theorem spec_type_display_roundtrip (v : SpecType) :
    ((∀ s, v ≠ SpecType.Custom s) →
      SpecType.from_str (SpecType.fmt v) = Except.ok v
      ∧ SpecType.fmt v ∈ recognized_chain_aliases)
    ∧ (∀ s, SpecType.fmt (SpecType.Custom s) = s) := by
  refine ⟨?_, fun s => rfl⟩
  intro h
  cases v
  case Custom c => exact absurd rfl (h c)
  all_goals exact ⟨rfl, by decide⟩

/-- C4 witness: the `Foundation` variant renders to a recognized token
that parses back to `Foundation`. -/
theorem spec_type_display_roundtrip_witness :
    SpecType.from_str (SpecType.fmt SpecType.Foundation) = Except.ok SpecType.Foundation
    ∧ SpecType.fmt SpecType.Foundation ∈ recognized_chain_aliases :=
  (spec_type_display_roundtrip SpecType.Foundation).1
    (fun _ h => SpecType.noConfusion h)

/-- C5: pruning resolution is total: `Specific a` resolves to `a` whatever
the persisted defaults hold, and `Auto` resolves to the persisted pruning
algorithm. -/
theorem pruning_to_algorithm_spec (a : Algorithm) (ud : UserDefaults) :
    Pruning.to_algorithm (Pruning.Specific a) ud = a
    ∧ Pruning.to_algorithm Pruning.Auto ud = ud.pruning :=
  ⟨rfl, rfl⟩

/-- C6: `ResealPolicy::from_str` accepts exactly the four tokens, mapping
them one-to-one onto the four boolean pairs; any other input yields an
error whose message contains the offending input; and the default policy
equals the result of parsing "all". -/
theorem reseal_policy_from_str_spec (s : String) :
    ResealPolicy.from_str "none" = Except.ok { own := false, external := false }
    ∧ ResealPolicy.from_str "own" = Except.ok { own := true, external := false }
    ∧ ResealPolicy.from_str "ext" = Except.ok { own := false, external := true }
    ∧ ResealPolicy.from_str "all" = Except.ok { own := true, external := true }
    ∧ ResealPolicy.from_str "all" = Except.ok ResealPolicy.default
    ∧ (s ∉ ["none", "own", "ext", "all"] →
        ∃ p, ResealPolicy.from_str s = Except.error (p ++ s)) := by
  refine ⟨rfl, rfl, rfl, rfl, rfl, ?_⟩
  intro h
  refine ⟨"Invalid reseal value: ", ?_⟩
  unfold ResealPolicy.from_str
  split <;> simp_all

/-- C6 witness: the fifth token "sometimes" is rejected with an error
message containing it. -/
theorem reseal_policy_from_str_spec_witness :
    ∃ p, ResealPolicy.from_str "sometimes" = Except.error (p ++ "sometimes") :=
  (reseal_policy_from_str_spec "sometimes").2.2.2.2.2 (by decide)

/-- C7: operating-mode resolution is total and ignores persisted state
when a mode is requested: `some m` always resolves to `m`, and `none`
always resolves to the persisted mode. -/
theorem mode_switch_to_bool_spec (m : Mode) (ud : UserDefaults) :
    mode_switch_to_bool (some m) ud = Except.ok m
    ∧ mode_switch_to_bool none ud = Except.ok ud.mode :=
  ⟨rfl, rfl⟩

/-- C8: the conversion to the runtime gas pricer passes a `Fixed` price
through unchanged; `Calibrated` forwards exactly the fiat target and
recalibration interval, so the result never depends on `initial_minimum`. -/
theorem gas_pricer_config_into_spec (u im im1 im2 : Nat) (usd : Float) (r : Nat) :
    GasPricerConfig.into_gas_pricer (GasPricerConfig.Fixed u) = GasPricer.Fixed u
    ∧ GasPricerConfig.into_gas_pricer (GasPricerConfig.Calibrated im usd r) =
        GasPricer.new_calibrated { usd_per_tx := usd, recalibration_period := r }
    ∧ GasPricerConfig.into_gas_pricer (GasPricerConfig.Calibrated im1 usd r) =
        GasPricerConfig.into_gas_pricer (GasPricerConfig.Calibrated im2 usd r) :=
  ⟨rfl, rfl, rfl⟩

/-- C9: `legacy_fork_name` returns a fixed stable name for exactly the two
classic-style forks (`Classic` and `Expanse`) and `none` for every other
variant. -/
theorem legacy_fork_name_spec (v : SpecType) :
    SpecType.legacy_fork_name SpecType.Classic = some "classic"
    ∧ SpecType.legacy_fork_name SpecType.Expanse = some "expanse"
    ∧ (v ≠ SpecType.Classic → v ≠ SpecType.Expanse →
        SpecType.legacy_fork_name v = none) := by
  refine ⟨rfl, rfl, fun h1 h2 => ?_⟩
  cases v <;> first
    | rfl
    | exact absurd rfl h1
    | exact absurd rfl h2

/-- C9 witness: the built-in `Ropsten` variant (neither classic-style
fork) has no legacy fork name. -/
theorem legacy_fork_name_spec_witness :
    SpecType.legacy_fork_name SpecType.Ropsten = none :=
  (legacy_fork_name_spec SpecType.Ropsten).2.2 (by decide) (by decide)

/-- C10: the `Algorithm` parameter of `fatdb_switch_to_bool` is inert: for
every switch and persisted defaults, any two algorithm arguments give the
same result. -/
theorem fatdb_switch_ignores_algorithm (sw : Switch) (ud : UserDefaults)
    (a1 a2 : Algorithm) :
    fatdb_switch_to_bool sw ud a1 = fatdb_switch_to_bool sw ud a2 :=
  rfl
